import Mathlib

/-
Verification of the capacity-aware reservation core of the theater-reservation
web application.

The embedding below translates the relevant JavaScript from the repository
into Lean definitions:

  * getReservedSeatsCount     from src/pages/audience/ReservePage.jsx
  * handleSubmit              from src/pages/audience/ReservePage.jsx
  * getTotalReservedPeople    from src/pages/troupe/TroupePerformancesPage.jsx
  * getReservationStatus      from src/pages/troupe/TroupePerformancesPage.jsx
  * the per-stage aggregation and handleCheckInToggle from
    PerformanceReservationsPage.jsx
  * loadReservation and handleCancel from CancelReservationPage.jsx

Firestore collections are modelled as Lean lists of records; a Firestore
query with where-clauses is modelled as List.filter over the collection.
Asynchronous writes are modelled by threading the collection state
explicitly and by Boolean flags that say whether a given write succeeds.
JavaScript numbers are modelled as Int (fractional values and NaN of the
number type are outside the model; values whose type is not number are
captured by the PeopleField constructors below).
-/

namespace TheaterApp

/-- The possible shapes of the people field of a stored reservation record
(the records are schemaless, so the field may be absent or hold a
non-number).  numStr models a string that the JavaScript Number() function
converts to an integer; other models any remaining non-numeric value
(a non-convertible string, null, and the like). -/
inductive PeopleField where
  | num (n : Int)
  | numStr (n : Int)
  | other
  | missing
deriving DecidableEq, Repr

/-- A document of the reservations collection.  Field names and the set of
fields follow the reservationData object written by handleSubmit in
ReservePage.jsx, plus the fields written later by the check-in and
cancellation flows (checkedIn, checkedInAt, cancelledAt) and the document
id.  Timestamps are modelled as Int. -/
structure Reservation where
  id : String
  performanceId : String
  troupeId : String
  stageId : Nat
  stageDate : String
  stageStart : String
  stageEnd : String
  performanceTitle : String
  troupeName : String
  venue : String
  prefecture : String
  region : String
  price : Int
  name : String
  email : String
  people : PeopleField
  note : String
  createdAt : Int
  status : Option String
  cancelToken : Option String
  checkedIn : Bool
  checkedInAt : Option Int
  cancelledAt : Option Int
deriving DecidableEq, Repr

/-- A stage (dated occurrence) of a performance, as stored in the stages
array of a performance document.  The source field named end is renamed
endTime (end is a Lean keyword).  seatLimit = 0 means unlimited. -/
structure Stage where
  date : String
  start : String
  endTime : String
  seatLimit : Int
deriving DecidableEq, Repr

/-- A document of the performances collection (the fields the reservation
core reads). -/
structure Performance where
  id : String
  title : String
  troupeId : String
  venue : String
  prefecture : String
  region : String
  price : Int
  stages : List Stage
deriving DecidableEq, Repr

/-- A document of the mailQueue collection, as written by handleSubmit in
ReservePage.jsx.  The source field named to is renamed recipient (to is a
Lean keyword). -/
structure MailMessage where
  type : String
  recipient : String
  subject : String
  body : String
  status : String
  createdAt : Int
  reservationId : String
deriving DecidableEq, Repr

/-- Whitespace as stripped by the JavaScript string trim method (the ASCII
whitespace occurring in this application's inputs). -/
def isWhitespaceChar (c : Char) : Bool :=
  c = ' ' || c = '\t' || c = '\n' || c = '\r'

/-- The JavaScript trim() on form fields: strip leading and trailing
whitespace.  (Defined over the character list so that it evaluates on
concrete inputs.) -/
def strTrim (s : String) : String :=
  String.mk (((s.toList.dropWhile isWhitespaceChar).reverse.dropWhile
    isWhitespaceChar).reverse)

/-- Per-record headcount used by getReservedSeatsCount in ReservePage.jsx:
  data.people and typeof data.people === "number" ? data.people : 1
A value that is a number and truthy (nonzero) contributes itself; every
other shape (absent, zero, a string — numeric or not, null, ...)
contributes 1. -/
def peopleCountReserve (p : PeopleField) : Int :=
  match p with
  | .num n => if n = 0 then 1 else n
  | .numStr _ => 1
  | .other => 1
  | .missing => 1

/-- The JavaScript expression Number(x) || 0 applied to a people field:
a number contributes itself (0 stays 0), a numerically convertible string
contributes its value, anything else (absent, NaN-producing) contributes 0.
Used by getTotalReservedPeople and by the stage aggregation in
PerformanceReservationsPage.jsx. -/
def numberOr0 (p : PeopleField) : Int :=
  match p with
  | .num n => n
  | .numStr n => n
  | .other => 0
  | .missing => 0

/-- The accumulation loop of getReservedSeatsCount (querySnapshot.forEach
adding peopleCount to totalReserved, starting from 0). -/
def sumPeopleReserve : List Reservation → Int
  | [] => 0
  | r :: rest => peopleCountReserve r.people + sumPeopleReserve rest

/-- getReservedSeatsCount from ReservePage.jsx.  The Firestore query
  where performanceId == target and where stageId == target
is modelled as a filter over the reservations collection; the matching
records have their people fields summed via peopleCountReserve.  Note that
the query has no condition on status, so cancelled reservations are also
summed.  (The guards returning 0 when db or the ids are absent, and the
catch branch returning 0 on a failed read, are outside this pure model.) -/
def getReservedSeatsCount (reservations : List Reservation)
    (targetPerformanceId : String) (targetStageId : Nat) : Int :=
  sumPeopleReserve (reservations.filter
    (fun r => r.performanceId == targetPerformanceId && r.stageId == targetStageId))

/-- getTotalReservedPeople from TroupePerformancesPage.jsx: the forEach
loop adding Number(reservation.people) || 0 to total, over the whole list
passed in, with no status condition.  (The non-array guard returning 0 is
outside the model: the argument is always a list here.) -/
def getTotalReservedPeople : List Reservation → Int
  | [] => 0
  | r :: rest => numberOr0 r.people + getTotalReservedPeople rest

/-- The reduce in the onSnapshot callback of PerformanceReservationsPage.jsx:
  stageReservations.reduce((sum, r) => sum + (Number(r.people) || 0), 0). -/
def sumPeople004 : List Reservation → Int
  | [] => 0
  | r :: rest => numberOr0 r.people + sumPeople004 rest

/-- The per-stage reserved-people aggregation of the onSnapshot callback in
PerformanceReservationsPage.jsx.  The subscription query filters the
reservations collection by performanceId; the callback then keeps the
records with reservation.stageId === stageIndex and
reservation.status !== "cancelled" and sums Number(people) || 0 over them. -/
def stageReservedPeople (reservations : List Reservation)
    (performanceId : String) (stageIndex : Nat) : Int :=
  sumPeople004 ((reservations.filter (fun r => r.performanceId == performanceId)).filter
    (fun r => r.stageId == stageIndex && r.status != some "cancelled"))

/-- getReservationStatus from TroupePerformancesPage.jsx.  The arguments
are already numbers in this model, so the Number(x) || 0 coercions at the
top of the source function are the identity. -/
def getReservationStatus (totalReservedPeople totalSeatLimit : Int) : String :=
  let reserved := totalReservedPeople
  let limit := totalSeatLimit
  if limit = 0 then "available"
  else
    let availableSeats := limit - reserved
    if availableSeats ≤ 0 then "full"
    else if availableSeats ≤ 5 then "few"
    else "available"

/-- The outcome handleSubmit surfaces to the user: a validation message, a
capacity rejection (setError with the remaining and requested counts, then
return before addDoc), a backend failure (the catch branch), or success
(navigation to the completion page with the new document id). -/
inductive SubmitOutcome where
  | validationError (msg : String)
  | capacityError (available requested : Int)
  | backendError (msg : String)
  | success (reservationId : String)
deriving DecidableEq, Repr

/-- The ambient data handleSubmit reads besides the form fields and the
collections: the route parameter, the loaded performance and troupe name,
window.location.origin, the generated cancel token, the id Firestore
assigns to the new document, the server timestamp, and whether each of the
two addDoc calls succeeds. -/
structure SubmitEnv where
  performanceId : String
  performance : Performance
  troupeName : String
  origin : String
  cancelToken : String
  newDocId : String
  now : Int
  reservationWriteOk : Bool
  mailWriteOk : Bool
deriving Repr

/-- The form state handleSubmit validates: name, email, emailConfirm, the
party size (people, already coerced by Number), the note, and the selected
stage index (null when none is selected). -/
structure BookingInput where
  name : String
  email : String
  emailConfirm : String
  people : Int
  note : String
  selectedStageId : Option Nat
deriving Repr

/-- The reservationData object built by handleSubmit in ReservePage.jsx
(string fields already trimmed as in the source). -/
def newReservation (env : SubmitEnv) (input : BookingInput)
    (stage : Stage) (sid : Nat) : Reservation :=
  { id := env.newDocId
    performanceId := env.performanceId
    troupeId := env.performance.troupeId
    stageId := sid
    stageDate := stage.date
    stageStart := stage.start
    stageEnd := stage.endTime
    performanceTitle := env.performance.title
    troupeName := env.troupeName
    venue := env.performance.venue
    prefecture := env.performance.prefecture
    region := env.performance.region
    price := env.performance.price
    name := strTrim input.name
    email := strTrim input.email
    people := .num input.people
    note := strTrim input.note
    createdAt := env.now
    status := some "active"
    cancelToken := some env.cancelToken
    checkedIn := false
    checkedInAt := none
    cancelledAt := none }

/-- The cancellation URL put into the confirmation mail:
window.location.origin followed by /cancel?token= and the credential. -/
def cancelUrl (origin token : String) : String :=
  origin ++ "/cancel?token=" ++ token

/-- The mailQueueData object built by handleSubmit.  The body in the source
is a long courtesy template; the operative content kept here is the
credential-bearing cancellation URL. -/
def newMailMessage (env : SubmitEnv) (input : BookingInput) : MailMessage :=
  { type := "reservation-confirm"
    recipient := strTrim input.email
    subject := "Reservation confirmed: " ++ env.performance.title
    body := cancelUrl env.origin env.cancelToken
    status := "pending"
    createdAt := env.now
    reservationId := env.newDocId }

/-- handleSubmit from ReservePage.jsx, as a transition on the two
collections it writes.  In source order: the six validations, then (when
the selected stage has seatLimit > 0) the commit-time re-check that
recomputes getReservedSeatsCount and aborts before any write when the
requested people exceed the latest remaining seats, then the reservation
addDoc, then the mailQueue addDoc.  A failed addDoc throws into the catch
branch, which only sets an error message: in particular a mailQueue
failure does not remove the already-written reservation.  Returns the
surfaced outcome together with the resulting reservations and mailQueue
collections. -/
def handleSubmit (env : SubmitEnv) (input : BookingInput)
    (reservations : List Reservation) (mailQueue : List MailMessage) :
    SubmitOutcome × List Reservation × List MailMessage :=
  if strTrim input.name = "" then (.validationError "name-required", reservations, mailQueue)
  else if strTrim input.email = "" then (.validationError "email-required", reservations, mailQueue)
  else if strTrim input.emailConfirm = "" then
    (.validationError "email-confirm-required", reservations, mailQueue)
  else if strTrim input.email ≠ strTrim input.emailConfirm then
    (.validationError "email-mismatch", reservations, mailQueue)
  else if input.people < 1 then (.validationError "people-min-1", reservations, mailQueue)
  else
    match input.selectedStageId with
    | none => (.validationError "stage-not-selected", reservations, mailQueue)
    | some sid =>
      match env.performance.stages[sid]? with
      | none => (.validationError "stage-not-found", reservations, mailQueue)
      | some stage =>
        let seatLimit := stage.seatLimit
        let latestReservedSeats := getReservedSeatsCount reservations env.performanceId sid
        let latestAvailableSeats := seatLimit - latestReservedSeats
        if seatLimit > 0 ∧ input.people > latestAvailableSeats then
          (.capacityError latestAvailableSeats input.people, reservations, mailQueue)
        else if env.reservationWriteOk = false then
          (.backendError "reservation-write-failed", reservations, mailQueue)
        else
          let reservations2 := reservations ++ [newReservation env input stage sid]
          if env.mailWriteOk = false then
            (.backendError "mail-write-failed", reservations2, mailQueue)
          else
            (.success env.newDocId, reservations2, mailQueue ++ [newMailMessage env input])

/-- The error states surfaced by loadReservation in
CancelReservationPage.jsx: missing token query parameter, or an empty
query result (unknown token). -/
inductive LoadError where
  | noToken
  | notFound
deriving DecidableEq, Repr

/-- loadReservation from CancelReservationPage.jsx: the query
  where cancelToken == token
over the reservations collection, modelled as a filter; an empty result is
the not-found error, otherwise querySnapshot.docs[0] is taken.  The lookup
itself does not depend on the reservation status (an already-cancelled
reservation is still resolved; the page then shows its cancelled state). -/
def loadReservation (reservations : List Reservation) (token : Option String) :
    Except LoadError Reservation :=
  match token with
  | none => .error .noToken
  | some t =>
    match reservations.filter (fun r => r.cancelToken == some t) with
    | [] => .error .notFound
    | d :: _ => .ok d

/-- The updateDoc payload of handleCancel: status becomes cancelled and
cancelledAt records the server timestamp. -/
def applyCancel (r : Reservation) (now : Int) : Reservation :=
  { r with status := some "cancelled", cancelledAt := some now }

/-- A write issued against the reservations collection by the cancellation
flow. -/
inductive CancelWrite where
  | setCancelled (reservationId : String) (cancelledAt : Int)
deriving DecidableEq, Repr

/-- handleCancel from CancelReservationPage.jsx: if the loaded reservation
already has status cancelled it returns before any write (the guard at the
top of the function); otherwise updateDoc sets status to cancelled and
records cancelledAt.  Returns the resulting record and the list of writes
issued.  (The catch branch of a failed updateDoc only sets an error
message and is outside this model; the db-missing guard likewise.) -/
def handleCancel (r : Reservation) (now : Int) : Reservation × List CancelWrite :=
  if r.status == some "cancelled" then (r, [])
  else (applyCancel r now, [.setCancelled r.id now])

/-- JavaScript Set.add on the set of checked reservation ids (insertion
order preserved, no duplicates). -/
def jsSetAdd (s : List String) (x : String) : List String :=
  if s.contains x then s else s ++ [x]

/-- JavaScript Set.delete on the set of checked reservation ids. -/
def jsSetDelete (s : List String) (x : String) : List String :=
  s.erase x

/-- A write issued against a reservation document by the check-in flow:
the updateDoc payload of handleCheckInToggle (checkedIn together with
checkedInAt, which is the server time on check-in and null on uncheck). -/
inductive CheckInWrite where
  | setCheckIn (reservationId : String) (checkedIn : Bool) (checkedInAt : Option Int)
deriving DecidableEq, Repr

/-- What one invocation of the check-in toggle produces: the optimistic
checked-set shown while the write is in flight, the checked-set after the
write settles, the successful writes, and whether an error was surfaced
(the alert in the catch branch). -/
structure ToggleResult where
  optimisticChecked : List String
  finalChecked : List String
  writes : List CheckInWrite
  errorSurfaced : Bool
deriving DecidableEq, Repr

/-- handleCheckInToggle from PerformanceReservationsPage.jsx.  The
re-entrancy guard skips the call when a write for this reservation is
already in flight (savingCheckIn).  Otherwise the checked set is updated
optimistically to newChecked, the updateDoc is attempted (writeOk says
whether it succeeds), and on failure the catch branch rebuilds the set
from the pre-toggle checkedReservations, applying the inverse of the
optimistic flip, and surfaces an alert. -/
def handleCheckInToggle (savingCheckIn checkedReservations : List String)
    (reservationId : String) (currentCheckedState : Bool)
    (writeOk : Bool) (now : Int) : ToggleResult :=
  if savingCheckIn.contains reservationId then
    ⟨checkedReservations, checkedReservations, [], false⟩
  else
    let willBeChecked := !currentCheckedState
    let newChecked :=
      if willBeChecked then jsSetAdd checkedReservations reservationId
      else jsSetDelete checkedReservations reservationId
    if writeOk then
      let payload :=
        if willBeChecked then CheckInWrite.setCheckIn reservationId true (some now)
        else CheckInWrite.setCheckIn reservationId false none
      ⟨newChecked, newChecked, [payload], false⟩
    else
      let rollbackChecked :=
        if willBeChecked then jsSetDelete checkedReservations reservationId
        else jsSetAdd checkedReservations reservationId
      ⟨newChecked, rollbackChecked, [], true⟩

/-- The disabled attribute of the check-in checkbox rendered for a
reservation row: disabled while its write is in flight or when the
reservation is cancelled (isSaving || isCancelled in the source). -/
def checkInCheckboxDisabled (savingCheckIn : List String) (r : Reservation) : Bool :=
  savingCheckIn.contains r.id || r.status == some "cancelled"

/-- The check-in control as rendered: a disabled checkbox fires no
onChange, so nothing runs; otherwise onChange invokes handleCheckInToggle
with isChecked computed from the checked set, exactly as in the JSX. -/
def checkInDispatch (savingCheckIn checkedReservations : List String)
    (r : Reservation) (writeOk : Bool) (now : Int) : ToggleResult :=
  if checkInCheckboxDisabled savingCheckIn r then
    ⟨checkedReservations, checkedReservations, [], false⟩
  else
    handleCheckInToggle savingCheckIn checkedReservations r.id
      (checkedReservations.contains r.id) writeOk now

/-- A concrete reservation record for evaluating the definitions on
explicit inputs; the display-only fields are fixed to simple values. -/
def mkReservation (rid pid : String) (sid : Nat) (ppl : PeopleField)
    (st : Option String) (tok : Option String) : Reservation :=
  { id := rid
    performanceId := pid
    troupeId := "t1"
    stageId := sid
    stageDate := "2026-01-10"
    stageStart := "14:00"
    stageEnd := "16:00"
    performanceTitle := "Example Performance"
    troupeName := "Example Troupe"
    venue := "Example Hall"
    prefecture := "Tokyo"
    region := "Kanto"
    price := 0
    name := "Taro"
    email := "taro@example.com"
    people := ppl
    note := ""
    createdAt := 0
    status := st
    cancelToken := tok
    checkedIn := false
    checkedInAt := none
    cancelledAt := none }

/-- A cancelled reservation for two people on stage 0 of performance p1. -/
def rCancelledTwo : Reservation :=
  mkReservation "r1" "p1" 0 (.num 2) (some "cancelled") (some "tok1")

/-- An active reservation whose people field is absent (a legacy record). -/
def rMissingPeople : Reservation :=
  mkReservation "r2" "p1" 0 .missing (some "active") (some "tok2")

/-- An active reservation for three people on stage 0 of performance p1. -/
def rActiveThree : Reservation :=
  mkReservation "r3" "p1" 0 (.num 3) (some "active") (some "tok3")

/-- An active reservation for one person on stage 0 of performance p1. -/
def rActiveOne : Reservation :=
  mkReservation "r4" "p1" 0 (.num 1) (some "active") (some "tok4")

/-- A stage capped at two seats. -/
def stageTwoSeats : Stage :=
  { date := "2026-01-10", start := "14:00", endTime := "16:00", seatLimit := 2 }

/-- A performance with a single two-seat stage. -/
def perfOneStage : Performance :=
  { id := "p1", title := "Example Performance", troupeId := "t1",
    venue := "Example Hall", prefecture := "Tokyo", region := "Kanto",
    price := 0, stages := [stageTwoSeats] }

/-- A booking environment in which both writes succeed. -/
def envBase : SubmitEnv :=
  { performanceId := "p1", performance := perfOneStage,
    troupeName := "Example Troupe", origin := "https://app.example",
    cancelToken := "tok-new", newDocId := "r-new", now := 100,
    reservationWriteOk := true, mailWriteOk := true }

/-- The booking environment with a failing reservation write. -/
def envResFail : SubmitEnv := { envBase with reservationWriteOk := false }

/-- The booking environment in which the reservation write succeeds but the
mailQueue write fails. -/
def envMailFail : SubmitEnv := { envBase with mailWriteOk := false }

/-- A valid form input requesting three seats on stage 0. -/
def inputThree : BookingInput :=
  { name := "Taro", email := "taro@example.com",
    emailConfirm := "taro@example.com", people := 3, note := "",
    selectedStageId := some 0 }

/-- A valid form input requesting one seat on stage 0. -/
def inputOne : BookingInput := { inputThree with people := 1 }

theorem getReservedSeatsCount_cons (r : Reservation) (rest : List Reservation)
    (pid : String) (sid : Nat) :
    getReservedSeatsCount (r :: rest) pid sid =
      (if r.performanceId == pid && r.stageId == sid then peopleCountReserve r.people else 0)
        + getReservedSeatsCount rest pid sid := by
  simp only [getReservedSeatsCount, List.filter_cons]
  split <;> simp [sumPeopleReserve]

theorem stageReservedPeople_cons (r : Reservation) (rest : List Reservation)
    (pid : String) (sid : Nat) :
    stageReservedPeople (r :: rest) pid sid =
      (if r.performanceId == pid && (r.stageId == sid && r.status != some "cancelled")
        then numberOr0 r.people else 0)
        + stageReservedPeople rest pid sid := by
  simp only [stageReservedPeople, List.filter_cons]
  by_cases h1 : (r.performanceId == pid) = true
  · simp only [h1, if_true, List.filter_cons]
    by_cases h2 : (r.stageId == sid && r.status != some "cancelled") = true
    · simp [h1, h2, sumPeople004]
    · simp only [Bool.not_eq_true] at h2
      simp [h1, h2]
  · simp only [Bool.not_eq_true] at h1
    simp [h1]

theorem sumPeopleReserve_append (a b : List Reservation) :
    sumPeopleReserve (a ++ b) = sumPeopleReserve a + sumPeopleReserve b := by
  induction a with
  | nil => simp [sumPeopleReserve]
  | cons r rest ih => simp [sumPeopleReserve, ih]; omega

theorem getTotalReservedPeople_append (a b : List Reservation) :
    getTotalReservedPeople (a ++ b)
      = getTotalReservedPeople a + getTotalReservedPeople b := by
  induction a with
  | nil => simp [getTotalReservedPeople]
  | cons r rest ih => simp [getTotalReservedPeople, ih]; omega

/-- Claim C1: the booking path of ReservePage.jsx is claimed to sum
partySize only over reservations whose status is not cancelled.  The code
disagrees: getReservedSeatsCount queries only by performanceId and stageId
and sums every matching record, so a cancelled reservation for two people
still contributes 2 to the capacity sum used by the advisory and
commit-time checks, while the aggregation of PerformanceReservationsPage
(which states and implements the exclusion policy) counts 0 for the same
ledger. -/
theorem c1_cancelled_reservation_counted :
    getReservedSeatsCount [rCancelledTwo] "p1" 0 = 2 ∧
    stageReservedPeople [rCancelledTwo] "p1" 0 = 0 := by decide

/-- Claim C3 counterexample: on a ledger holding a single active
reservation whose people field is absent, the booking path computes 1
while the shared getTotalReservedPeople computes 0, so the three
reserved-count computations are not identical. -/
theorem c3_counterexample :
    ¬ (getReservedSeatsCount [rMissingPeople] "p1" 0
        = getTotalReservedPeople [rMissingPeople]) := by decide

/-- Claim C3 as amended: on ledgers in which every record belongs to the
given performance and stage, is not cancelled, and carries a nonzero
numeric people field, the booking-path sum, the shared
getTotalReservedPeople, and the dashboard per-stage aggregation agree. -/
theorem c3_amended_three_sums_agree (ledger : List Reservation)
    (pid : String) (sid : Nat)
    (h : ∀ r ∈ ledger, r.performanceId = pid ∧ r.stageId = sid ∧
      r.status ≠ some "cancelled" ∧ ∃ n, n ≠ 0 ∧ r.people = PeopleField.num n) :
    getReservedSeatsCount ledger pid sid = getTotalReservedPeople ledger ∧
    stageReservedPeople ledger pid sid = getTotalReservedPeople ledger := by
  induction ledger with
  | nil => exact ⟨rfl, rfl⟩
  | cons r rest ih =>
    obtain ⟨hpid, hsid, hstat, n, hn0, hppl⟩ := h r (by simp)
    obtain ⟨ih1, ih2⟩ := ih (fun x hx => h x (by simp [hx]))
    have hcond : (r.performanceId == pid && r.stageId == sid) = true := by
      simp [hpid, hsid]
    have hbne : (r.status != some "cancelled") = true := by
      simp [bne, hstat]
    have hcond2 :
        (r.performanceId == pid && (r.stageId == sid && r.status != some "cancelled")) = true := by
      simp [hpid, hsid, hbne]
    have htot : getTotalReservedPeople (r :: rest)
        = numberOr0 r.people + getTotalReservedPeople rest := rfl
    have hcount : peopleCountReserve r.people = numberOr0 r.people := by
      simp [hppl, peopleCountReserve, numberOr0, hn0]
    constructor
    · rw [getReservedSeatsCount_cons, htot, hcount, ih1]
      simp [hcond]
    · rw [stageReservedPeople_cons, htot, ih2]
      simp [hcond2]

/-- Claim C3 amended, witness: both equalities hold on a concrete
two-record ledger. -/
theorem c3_amended_three_sums_agree_witness :
    getReservedSeatsCount [rActiveThree, rActiveOne] "p1" 0
        = getTotalReservedPeople [rActiveThree, rActiveOne] ∧
    stageReservedPeople [rActiveThree, rActiveOne] "p1" 0
        = getTotalReservedPeople [rActiveThree, rActiveOne] :=
  c3_amended_three_sums_agree [rActiveThree, rActiveOne] "p1" 0 (by
    intro r hr
    simp only [List.mem_cons, List.not_mem_nil, or_false] at hr
    rcases hr with h | h
    · subst h; exact ⟨by decide, by decide, by decide, 3, by decide, by decide⟩
    · subst h; exact ⟨by decide, by decide, by decide, 1, by decide, by decide⟩)

/-- Claim C5: for non-negative reserved count and seat limit,
getReservationStatus returns full exactly when the limit is positive and
no seats remain, few exactly when the limit is positive and between one
and five seats remain, available in every other case, and in particular
always available when the limit is 0 (unlimited). -/
theorem c5_classify_thresholds (r L : Int) (hr : 0 ≤ r) (hL : 0 ≤ L) :
    (getReservationStatus r L = "full" ↔ 0 < L ∧ L - r ≤ 0) ∧
    (getReservationStatus r L = "few" ↔ 0 < L ∧ 0 < L - r ∧ L - r ≤ 5) ∧
    ((¬ (0 < L ∧ L - r ≤ 0) ∧ ¬ (0 < L ∧ 0 < L - r ∧ L - r ≤ 5)) →
      getReservationStatus r L = "available") ∧
    (L = 0 → getReservationStatus r L = "available") := by
  dsimp only [getReservationStatus]
  split_ifs with h1 h2 h3 <;> refine ⟨?_, ?_, ?_, ?_⟩ <;> simp_all <;> omega

/-- Claim C5 witness: with 18 of 20 seats reserved the classifier reports
few, matching the thresholds at a concrete input. -/
theorem c5_classify_thresholds_witness :
    (0:Int) ≤ 18 ∧ (0:Int) ≤ 20 ∧ getReservationStatus 18 20 = "few" :=
  ⟨by decide, by decide,
    ((c5_classify_thresholds 18 20 (by decide) (by decide)).2.1).mpr (by decide)⟩

/-- Claim C6 counterexample: the claim asserts that the reserved-count
computation treats a missing partySize as 1, but the shared
getTotalReservedPeople (one of the computations the claim cites) yields 0
on a single legacy record with no people field. -/
theorem c6_counterexample :
    getTotalReservedPeople [rMissingPeople] = 0 ∧
    ¬ (getTotalReservedPeople [rMissingPeople] = 1) := by decide

/-- Claim C6 as amended: the booking path counts a reservation whose
people field is missing or not numerically convertible as 1, while
getTotalReservedPeople coerces with Number() and counts such a record as
0; both sums are total functions (they never throw). -/
theorem c6_amended_legacy_defaulting (l1 l2 : List Reservation) (r : Reservation)
    (pid : String) (sid : Nat)
    (hppl : r.people = PeopleField.missing ∨ r.people = PeopleField.other)
    (hpid : r.performanceId = pid) (hsid : r.stageId = sid) :
    getReservedSeatsCount (l1 ++ r :: l2) pid sid
      = getReservedSeatsCount (l1 ++ l2) pid sid + 1 ∧
    getTotalReservedPeople (l1 ++ r :: l2) = getTotalReservedPeople (l1 ++ l2) := by
  have hfilter : (r.performanceId == pid && r.stageId == sid) = true := by
    simp [hpid, hsid]
  have hc : peopleCountReserve r.people = 1 := by
    rcases hppl with h | h <;> simp [h, peopleCountReserve]
  have hz : numberOr0 r.people = 0 := by
    rcases hppl with h | h <;> simp [h, numberOr0]
  constructor
  · simp only [getReservedSeatsCount, List.filter_append, List.filter_cons, hfilter,
      if_true, sumPeopleReserve_append, sumPeopleReserve, hc]
    omega
  · simp only [getTotalReservedPeople_append, getTotalReservedPeople, hz]
    omega

/-- Claim C6 amended, witness: appending the legacy record to a one-record
ledger raises the booking-path sum by one and leaves the shared sum
unchanged. -/
theorem c6_amended_legacy_defaulting_witness :
    getReservedSeatsCount ([rActiveThree] ++ rMissingPeople :: []) "p1" 0
      = getReservedSeatsCount ([rActiveThree] ++ []) "p1" 0 + 1 ∧
    getTotalReservedPeople ([rActiveThree] ++ rMissingPeople :: [])
      = getTotalReservedPeople ([rActiveThree] ++ []) :=
  c6_amended_legacy_defaulting [rActiveThree] [] rMissingPeople "p1" 0
    (Or.inl rfl) rfl rfl

/-- Claim C2: on a stage with seatLimit > 0, when the requested party size
exceeds the remaining seats computed by the commit-time re-check (seatLimit
minus the latest getReservedSeatsCount), handleSubmit returns the capacity
error carrying the remaining and requested counts and performs no write:
the reservations collection and the mailQueue are returned unchanged. -/
theorem c2_commit_recheck_rejects (env : SubmitEnv) (input : BookingInput)
    (reservations : List Reservation) (mailQueue : List MailMessage)
    (sid : Nat) (stage : Stage)
    (hname : strTrim input.name ≠ "")
    (hemail : strTrim input.email ≠ "")
    (hconf : strTrim input.emailConfirm ≠ "")
    (hmatch : strTrim input.email = strTrim input.emailConfirm)
    (hppl : 1 ≤ input.people)
    (hsel : input.selectedStageId = some sid)
    (hstage : env.performance.stages[sid]? = some stage)
    (hcap : stage.seatLimit > 0)
    (hover : input.people >
      stage.seatLimit - getReservedSeatsCount reservations env.performanceId sid) :
    handleSubmit env input reservations mailQueue =
      (.capacityError
          (stage.seatLimit - getReservedSeatsCount reservations env.performanceId sid)
          input.people,
        reservations, mailQueue) := by
  have hm : ¬ (strTrim input.email ≠ strTrim input.emailConfirm) := fun hne => hne hmatch
  have hp : ¬ (input.people < 1) := by omega
  simp only [handleSubmit, hsel, hstage]
  rw [if_neg hname, if_neg hemail, if_neg hconf, if_neg hm, if_neg hp,
    if_pos ⟨hcap, hover⟩]

/-- Claim C2 witness: a request for three seats against a two-seat stage
with an empty ledger is rejected with available 2 and requested 3, and
nothing is written. -/
theorem c2_commit_recheck_rejects_witness :
    handleSubmit envBase inputThree [] [] =
      (.capacityError
          (stageTwoSeats.seatLimit - getReservedSeatsCount [] envBase.performanceId 0)
          inputThree.people,
        [], []) :=
  c2_commit_recheck_rejects envBase inputThree [] [] 0 stageTwoSeats
    (by decide) (by decide) (by decide) (by decide) (by decide) (by decide)
    (by decide) (by decide) (by decide)

/-- Claim C10: in handleSubmit the mailQueue record is only written after
the reservation addDoc has succeeded (a failed reservation write leaves
the mailQueue untouched), and when the subsequent mailQueue write fails
the already-written reservation is kept while the caller is surfaced a
failure, so a booking can be committed with no notification record. -/
theorem c10_mail_enqueued_after_reservation (env : SubmitEnv) (input : BookingInput)
    (reservations : List Reservation) (mailQueue : List MailMessage)
    (sid : Nat) (stage : Stage)
    (hname : strTrim input.name ≠ "")
    (hemail : strTrim input.email ≠ "")
    (hconf : strTrim input.emailConfirm ≠ "")
    (hmatch : strTrim input.email = strTrim input.emailConfirm)
    (hppl : 1 ≤ input.people)
    (hsel : input.selectedStageId = some sid)
    (hstage : env.performance.stages[sid]? = some stage)
    (hcapok : ¬ (stage.seatLimit > 0 ∧ input.people >
      stage.seatLimit - getReservedSeatsCount reservations env.performanceId sid)) :
    (env.reservationWriteOk = false →
      handleSubmit env input reservations mailQueue =
        (.backendError "reservation-write-failed", reservations, mailQueue)) ∧
    (env.reservationWriteOk = true → env.mailWriteOk = false →
      handleSubmit env input reservations mailQueue =
        (.backendError "mail-write-failed",
          reservations ++ [newReservation env input stage sid], mailQueue)) := by
  have hm : ¬ (strTrim input.email ≠ strTrim input.emailConfirm) := fun hne => hne hmatch
  have hp : ¬ (input.people < 1) := by omega
  constructor
  · intro hres
    simp only [handleSubmit, hsel, hstage]
    rw [if_neg hname, if_neg hemail, if_neg hconf, if_neg hm, if_neg hp,
      if_neg hcapok, if_pos (by simp [hres])]
  · intro hres hmail
    simp only [handleSubmit, hsel, hstage]
    rw [if_neg hname, if_neg hemail, if_neg hconf, if_neg hm, if_neg hp,
      if_neg hcapok, if_neg (by simp [hres]), if_pos (by simp [hmail])]

/-- Claim C10 witness: with a failing reservation write, nothing is added
to either collection; with a succeeding reservation write and a failing
mail write, the reservation is in the ledger, the mailQueue is empty, and
a failure is surfaced. -/
theorem c10_mail_enqueued_after_reservation_witness :
    handleSubmit envResFail inputOne [] [] =
      (.backendError "reservation-write-failed", [], []) ∧
    handleSubmit envMailFail inputOne [] [] =
      (.backendError "mail-write-failed",
        [] ++ [newReservation envMailFail inputOne stageTwoSeats 0], []) :=
  ⟨(c10_mail_enqueued_after_reservation envResFail inputOne [] [] 0 stageTwoSeats
      (by decide) (by decide) (by decide) (by decide) (by decide) (by decide)
      (by decide) (by decide)).1 (by decide),
    (c10_mail_enqueued_after_reservation envMailFail inputOne [] [] 0 stageTwoSeats
      (by decide) (by decide) (by decide) (by decide) (by decide) (by decide)
      (by decide) (by decide)).2 (by decide) (by decide)⟩

/-- Claim C7: handleCancel takes an active reservation to status cancelled
with cancelledAt recorded, is a silent no-op issuing no write on an
already-cancelled reservation, and is idempotent: its result always has
status cancelled, and cancelling that result again changes nothing and
writes nothing (so a re-cancel cannot change any reserved count). -/
theorem c7_cancel_idempotent (r : Reservation) (now now2 : Int) :
    (r.status ≠ some "cancelled" →
      handleCancel r now =
        ({ r with status := some "cancelled", cancelledAt := some now },
          [.setCancelled r.id now])) ∧
    (r.status = some "cancelled" → handleCancel r now = (r, [])) ∧
    (handleCancel r now).1.status = some "cancelled" ∧
    handleCancel (handleCancel r now).1 now2 = ((handleCancel r now).1, []) := by
  by_cases h : r.status = some "cancelled"
  · simp [handleCancel, applyCancel, h]
  · have hb : (r.status == some "cancelled") = false := by simp [h]
    simp [handleCancel, applyCancel, hb, h]

/-- Claim C7 witness: cancelling an active reservation at time 5 records
the transition, and the result is already cancelled. -/
theorem c7_cancel_idempotent_witness :
    handleCancel rActiveThree 5 =
      ({ rActiveThree with status := some "cancelled", cancelledAt := some 5 },
        [.setCancelled rActiveThree.id 5]) :=
  (c7_cancel_idempotent rActiveThree 5 6).1 (by decide)

/-- Claim C9: loadReservation with a token held by no reservation in the
ledger resolves to the not-found error; with a token held by exactly one
reservation it resolves to that reservation, however many other records
the ledger holds, and — being a pure query with no status condition — it
behaves the same on repeated lookups and on an already-cancelled
reservation. -/
theorem c9_resolve_by_credential (reservations : List Reservation) (t : String) :
    ((∀ r ∈ reservations, r.cancelToken ≠ some t) →
      loadReservation reservations (some t) = .error .notFound) ∧
    (∀ res, res ∈ reservations → res.cancelToken = some t →
      (∀ r ∈ reservations, r.cancelToken = some t → r = res) →
      loadReservation reservations (some t) = .ok res) := by
  have hstep : loadReservation reservations (some t) =
      (match reservations.filter (fun r => r.cancelToken == some t) with
        | [] => Except.error LoadError.notFound
        | d :: _ => Except.ok d) := rfl
  constructor
  · intro h
    have hnil : reservations.filter (fun r => r.cancelToken == some t) = [] := by
      rw [List.filter_eq_nil_iff]
      intro a ha
      simp [h a ha]
    rw [hstep, hnil]
  · intro res hmem htok huniq
    have hin : res ∈ reservations.filter (fun r => r.cancelToken == some t) := by
      rw [List.mem_filter]
      exact ⟨hmem, by simp [htok]⟩
    cases hf : reservations.filter (fun r => r.cancelToken == some t) with
    | nil => rw [hf] at hin; simp at hin
    | cons d tl =>
      have hd : d ∈ reservations.filter (fun r => r.cancelToken == some t) := by
        rw [hf]; exact List.mem_cons_self d tl
      rw [List.mem_filter] at hd
      have hdres : d = res := huniq d hd.1 (by simpa using hd.2)
      rw [hstep, hf, hdres]

/-- Claim C9 witness: on a two-record ledger an unknown token is
not-found and the token issued to the second record resolves exactly to
that record. -/
theorem c9_resolve_by_credential_witness :
    loadReservation [rActiveThree, rActiveOne] (some "nope") = .error .notFound ∧
    loadReservation [rActiveThree, rActiveOne] (some "tok4") = .ok rActiveOne :=
  ⟨(c9_resolve_by_credential [rActiveThree, rActiveOne] "nope").1 (by decide),
    (c9_resolve_by_credential [rActiveThree, rActiveOne] "tok4").2 rActiveOne
      (by decide) (by decide) (by decide)⟩

/-- Claim C4: for a cancelled reservation the check-in control dispatches
nothing: the checkbox is rendered disabled (so its onChange never runs),
no update is issued, the checked set is unchanged, and no error is
surfaced. -/
theorem c4_cancelled_checkin_noop (savingCheckIn checkedReservations : List String)
    (r : Reservation) (writeOk : Bool) (now : Int)
    (h : r.status = some "cancelled") :
    checkInDispatch savingCheckIn checkedReservations r writeOk now =
      ⟨checkedReservations, checkedReservations, [], false⟩ ∧
    checkInCheckboxDisabled savingCheckIn r = true := by
  have hd : checkInCheckboxDisabled savingCheckIn r = true := by
    simp [checkInCheckboxDisabled, h]
  exact ⟨by simp [checkInDispatch, hd], hd⟩

/-- Claim C4 witness: the control over a concrete cancelled reservation is
disabled and leaves the checked set untouched with no write. -/
theorem c4_cancelled_checkin_noop_witness :
    checkInDispatch [] ["r9"] rCancelledTwo true 7 = ⟨["r9"], ["r9"], [], false⟩ ∧
    checkInCheckboxDisabled [] rCancelledTwo = true :=
  c4_cancelled_checkin_noop [] ["r9"] rCancelledTwo true 7 (by decide)

/-- Claim C8: for a non-cancelled reservation with no write in flight, the
toggle first flips the membership of the reservation in the checked set
optimistically; when the write fails, the final checked set is exactly the
pre-toggle set, no write lands, and an error is surfaced. -/
theorem c8_failed_toggle_rolls_back (savingCheckIn checkedReservations : List String)
    (r : Reservation) (now : Int)
    (hnd : checkedReservations.Nodup)
    (hsave : savingCheckIn.contains r.id = false)
    (hstat : r.status ≠ some "cancelled") :
    (checkInDispatch savingCheckIn checkedReservations r false now).optimisticChecked.contains r.id
        = !(checkedReservations.contains r.id) ∧
    (checkInDispatch savingCheckIn checkedReservations r false now).finalChecked
        = checkedReservations ∧
    (checkInDispatch savingCheckIn checkedReservations r false now).writes = [] ∧
    (checkInDispatch savingCheckIn checkedReservations r false now).errorSurfaced = true := by
  have hsave' : r.id ∉ savingCheckIn := by simpa using hsave
  have hst : (r.status == some "cancelled") = false := beq_eq_false_iff_ne.mpr hstat
  have hd : checkInCheckboxDisabled savingCheckIn r = false := by
    simp only [checkInCheckboxDisabled]
    rw [hsave, hst]
    rfl
  by_cases hmem : r.id ∈ checkedReservations
  · have herase : r.id ∉ checkedReservations.erase r.id := hnd.not_mem_erase
    simp [checkInDispatch, hd, handleCheckInToggle, hsave', hmem,
      jsSetAdd, jsSetDelete, herase]
  · have herase : checkedReservations.erase r.id = checkedReservations :=
      List.erase_of_not_mem hmem
    simp [checkInDispatch, hd, handleCheckInToggle, hsave', hmem,
      jsSetAdd, jsSetDelete, herase]

/-- Claim C8 witness: a failed toggle on an active reservation not in the
checked set flips it optimistically, then restores the original set and
surfaces an error. -/
theorem c8_failed_toggle_rolls_back_witness :
    (checkInDispatch [] ["a"] rActiveOne false 7).optimisticChecked.contains rActiveOne.id
        = !(List.contains ["a"] rActiveOne.id) ∧
    (checkInDispatch [] ["a"] rActiveOne false 7).finalChecked = ["a"] ∧
    (checkInDispatch [] ["a"] rActiveOne false 7).writes = [] ∧
    (checkInDispatch [] ["a"] rActiveOne false 7).errorSurfaced = true :=
  c8_failed_toggle_rolls_back [] ["a"] rActiveOne 7 (by decide) (by decide) (by decide)

end TheaterApp
